import Mathlib

/-!
Shallow embedding of the API gateway in `complete_gateway.py`:
configuration tables, the in-memory storage (rate-limit windows,
circuit-breaker records, TTL cache, aggregate stats), the gateway
operations (`check_rate_limit`, `check_circuit_breaker`,
`record_success`, `record_failure`, `forward_request`) and the
request pipeline `gateway_middleware`.  Timestamps are modelled as
natural-number seconds; Python dicts are modelled as association
lists with in-place update; `time.time()` is passed explicitly as a
parameter to each operation that reads the clock.
-/

namespace Gateway

/-- Association-list update mirroring Python dict assignment
`d[k] = v`: replaces the binding in place if present, appends
otherwise. -/
def setA {β : Type} (k : String) (v : β) : List (String × β) → List (String × β)
  | [] => [(k, v)]
  | (k', v') :: rest => if k' = k then (k, v) :: rest else (k', v') :: setA k v rest

/-- Association-list deletion mirroring Python `del d[k]`. -/
def eraseA {β : Type} (k : String) : List (String × β) → List (String × β)
  | [] => []
  | (k', v') :: rest => if k' = k then rest else (k', v') :: eraseA k rest

/-- Routing table `GatewayConfig.ROUTES`: path prefix to service name,
in declaration order. -/
def ROUTES : List (String × String) :=
  [("/api/users", "users"), ("/api/products", "products"), ("/api/orders", "orders")]

/-- Rate-limit ceilings `GatewayConfig.RATE_LIMITS`. -/
def RATE_LIMITS : List (String × Nat) :=
  [("default", 100), ("anonymous", 50), ("premium", 1000)]

/-- Breaker failure threshold from `GatewayConfig.CIRCUIT_BREAKER`. -/
def failure_threshold : Nat := 5

/-- Breaker open timeout from `GatewayConfig.CIRCUIT_BREAKER`. -/
def cb_timeout : Nat := 60

/-- Limit lookup with fallback to the default ceiling, as in
`RATE_LIMITS.get(tier, RATE_LIMITS["default"])`. -/
def rateLimitFor (tier : String) : Nat :=
  (RATE_LIMITS.lookup tier).getD ((RATE_LIMITS.lookup "default").getD 0)

/-- JSON-like payloads, with Python truthiness. -/
inductive JsonValue : Type where
  | null : JsonValue
  | bool : Bool → JsonValue
  | num : Int → JsonValue
  | str : String → JsonValue
  | arr : List JsonValue → JsonValue
  | obj : List (String × JsonValue) → JsonValue
deriving Repr

/-- Python truthiness of a JSON value (`if cached_response:`):
`None`, `False`, `0`, `""`, `[]`, `{}` are falsy. -/
def JsonValue.truthy : JsonValue → Bool
  | .null => false
  | .bool b => b
  | .num n => n != 0
  | .str s => s != ""
  | .arr xs => !xs.isEmpty
  | .obj fs => !fs.isEmpty

/-- Per-client rate-limit window, one entry of `self.rate_limits`. -/
structure RateLimitData where
  count : Nat
  reset_time : Nat
deriving Repr, DecidableEq

/-- Circuit-breaker state strings: closed, open, half-open. -/
inductive CBState : Type where
  | closed : CBState
  | opened : CBState
  | halfOpen : CBState
deriving Repr, DecidableEq

/-- One per-service circuit-breaker record
(`self.circuit_breakers[service]`). -/
structure CircuitBreakerData where
  state : CBState
  failures : Nat
  last_failure_time : Nat
  success_count : Nat
deriving Repr, DecidableEq

/-- The default circuit-breaker record created lazily in
`get_circuit_breaker_state`. -/
def freshBreaker : CircuitBreakerData :=
  { state := .closed, failures := 0, last_failure_time := 0, success_count := 0 }

/-- Cache entry, one entry of `self.cache`. -/
structure CacheEntry where
  value : JsonValue
  expires_at : Nat
deriving Repr

/-- Aggregate counters `self.stats`. -/
structure Stats where
  total_requests : Nat
  successful_requests : Nat
  failed_requests : Nat
  cached_requests : Nat
deriving Repr, DecidableEq

/-- Storage class `InMemoryStorage`: all mutable gateway state. -/
structure InMemoryStorage where
  rate_limits : List (String × RateLimitData)
  circuit_breakers : List (String × CircuitBreakerData)
  cache : List (String × CacheEntry)
  stats : Stats
deriving Repr

/-- Freshly constructed storage, as built by the constructor of
`InMemoryStorage`. -/
def emptyStorage : InMemoryStorage :=
  { rate_limits := [], circuit_breakers := [], cache := [],
    stats := { total_requests := 0, successful_requests := 0,
               failed_requests := 0, cached_requests := 0 } }

/-- Method `InMemoryStorage.get_rate_limit_data`: fetch-or-create the window
for `key`, resetting it when `current_time > reset_time`; returns the
window together with the updated storage. -/
def get_rate_limit_data (st : InMemoryStorage) (current_time : Nat) (key : String) :
    RateLimitData × InMemoryStorage :=
  let data0 : RateLimitData :=
    match st.rate_limits.lookup key with
    | some d => d
    | none => { count := 0, reset_time := current_time + 60 }
  let data : RateLimitData :=
    if current_time > data0.reset_time then
      { count := 0, reset_time := current_time + 60 }
    else data0
  (data, { st with rate_limits := setA key data st.rate_limits })

/-- Method `InMemoryStorage.increment_rate_limit`: bump the count of the
window and return the post-increment count. -/
def increment_rate_limit (st : InMemoryStorage) (current_time : Nat) (key : String) :
    Nat × InMemoryStorage :=
  let r := get_rate_limit_data st current_time key
  let data' : RateLimitData := { r.1 with count := r.1.count + 1 }
  (data'.count, { r.2 with rate_limits := setA key data' r.2.rate_limits })

/-- Method `InMemoryStorage.get_circuit_breaker_state`: fetch-or-create the
per-service breaker record. -/
def get_circuit_breaker_state (st : InMemoryStorage) (service : String) :
    CircuitBreakerData × InMemoryStorage :=
  match st.circuit_breakers.lookup service with
  | some d => (d, st)
  | none => (freshBreaker, { st with circuit_breakers := setA service freshBreaker st.circuit_breakers })

/-- Method `InMemoryStorage.cache_set`. -/
def cache_set (st : InMemoryStorage) (current_time : Nat) (key : String)
    (value : JsonValue) (ttl : Nat) : InMemoryStorage :=
  { st with cache := setA key { value := value, expires_at := current_time + ttl } st.cache }

/-- Method `InMemoryStorage.cache_get`: absent keys give `none`; an entry
past its expiry is lazily deleted and gives `none`; otherwise the value. -/
def cache_get (st : InMemoryStorage) (current_time : Nat) (key : String) :
    Option JsonValue × InMemoryStorage :=
  match st.cache.lookup key with
  | none => (none, st)
  | some cached =>
    if current_time > cached.expires_at then
      (none, { st with cache := eraseA key st.cache })
    else
      (some cached.value, st)

/-- Method `APIGateway.find_service`: the first route entry whose path
string starts the path wins; no match is `none`.  The Python
`path.startswith(route_prefix)` is modelled as a prefix test on the
character lists of the two strings. -/
def find_service (path : String) : Option String :=
  (ROUTES.find? (fun r => r.1.data.isPrefixOf path.data)).map (fun r => r.2)

/-- Method `APIGateway.check_rate_limit`: increment the window of the
client and allow iff the post-increment count is within the limit of
the tier (falling back to the default limit for unknown tiers). -/
def check_rate_limit (st : InMemoryStorage) (current_time : Nat)
    (user_id : String) (tier : String) : Bool × InMemoryStorage :=
  let limit := rateLimitFor tier
  let r := increment_rate_limit st current_time user_id
  (decide (r.1 ≤ limit), r.2)

/-- Method `APIGateway.check_circuit_breaker`: deny while `open` unless more
than 60s have passed since the last failure, in which case move to
`half-open` with `success_count = 0` and allow. -/
def check_circuit_breaker (st : InMemoryStorage) (current_time : Nat)
    (service_name : String) : Bool × InMemoryStorage :=
  let r := get_circuit_breaker_state st service_name
  match r.1.state with
  | .opened =>
    if current_time - r.1.last_failure_time > cb_timeout then
      let cb' : CircuitBreakerData := { r.1 with state := .halfOpen, success_count := 0 }
      (true, { r.2 with circuit_breakers := setA service_name cb' r.2.circuit_breakers })
    else
      (false, r.2)
  | _ => (true, r.2)

/-- Method `APIGateway.record_success`: in `half-open`, count the success and
close (resetting failures) at 2 successes; otherwise reset failures.
Always bumps `successful_requests`. -/
def record_success (st : InMemoryStorage) (service_name : String) : InMemoryStorage :=
  let r := get_circuit_breaker_state st service_name
  let st1 :=
    match r.1.state with
    | .halfOpen =>
      let cb1 : CircuitBreakerData := { r.1 with success_count := r.1.success_count + 1 }
      let cb2 : CircuitBreakerData :=
        if cb1.success_count ≥ 2 then { cb1 with state := .closed, failures := 0 } else cb1
      { r.2 with circuit_breakers := setA service_name cb2 r.2.circuit_breakers }
    | _ =>
      { r.2 with circuit_breakers := setA service_name { r.1 with failures := 0 } r.2.circuit_breakers }
  { st1 with stats := { st1.stats with successful_requests := st1.stats.successful_requests + 1 } }

/-- Method `APIGateway.record_failure`: bump failures, stamp the failure time;
any failure in `half-open` reopens; at the failure threshold the
breaker opens.  Always bumps `failed_requests`. -/
def record_failure (st : InMemoryStorage) (current_time : Nat) (service_name : String) :
    InMemoryStorage :=
  let r := get_circuit_breaker_state st service_name
  let cb1 : CircuitBreakerData :=
    { r.1 with failures := r.1.failures + 1, last_failure_time := current_time }
  let cb2 : CircuitBreakerData :=
    if cb1.state = .halfOpen then { cb1 with state := .opened }
    else if cb1.failures ≥ failure_threshold then { cb1 with state := .opened }
    else cb1
  let st1 := { r.2 with circuit_breakers := setA service_name cb2 r.2.circuit_breakers }
  { st1 with stats := { st1.stats with failed_requests := st1.stats.failed_requests + 1 } }

/-- Outcome of the outbound `httpx` call in
`APIGateway.forward_request`: a response, or one of the transport
failures the code catches. -/
inductive ForwardOutcome : Type where
  | success : Nat → JsonValue → ForwardOutcome
  | timeout : ForwardOutcome
  | connectError : ForwardOutcome
  | otherError : String → ForwardOutcome
deriving Repr

/-- What `forward_request` produces for its caller: the backend
response, or a raised `HTTPException (status, detail)`. -/
inductive ForwardResult : Type where
  | response : Nat → JsonValue → ForwardResult
  | httpError : Nat → String → ForwardResult
deriving Repr

/-- Method `APIGateway.forward_request`: on success record success and return
the response; on timeout / connect failure / other exception record
failure once and raise 504 / 503 / 502 with the matching detail. -/
def forward_request (st : InMemoryStorage) (current_time : Nat) (service_name : String)
    (outcome : ForwardOutcome) : ForwardResult × InMemoryStorage :=
  match outcome with
  | .success status body => (.response status body, record_success st service_name)
  | .timeout =>
    (.httpError 504 ("Gateway timeout: " ++ service_name), record_failure st current_time service_name)
  | .connectError =>
    (.httpError 503 ("Service unavailable: " ++ service_name), record_failure st current_time service_name)
  | .otherError msg =>
    (.httpError 502 ("Bad gateway: " ++ msg), record_failure st current_time service_name)

/-- An inbound request as the middleware sees it: URL path, raw query
string, method, and headers. -/
structure GatewayRequest where
  path : String
  query : String
  method : String
  headers : List (String × String)
deriving Repr

/-- Header lookup `request.headers.get(k, dflt)`. -/
def headerGet (headers : List (String × String)) (k dflt : String) : String :=
  (headers.lookup k).getD dflt

/-- The terminal outcome of `gateway_middleware` for one request. -/
inductive MWResult : Type where
  /-- Passthrough `call_next(request)`: a gateway-owned path handled locally. -/
  | bypass : MWResult
  /-- Response 404 `Route not found`. -/
  | notFound : String → MWResult
  /-- Response 429 `Rate limit exceeded`. -/
  | rateLimited : MWResult
  /-- Response 503 `Service temporarily unavailable` from the breaker gate. -/
  | circuitOpenResp : String → MWResult
  /-- Cache hit: 200 with the cached payload, `X-Cache: HIT`. -/
  | hit : String → JsonValue → MWResult
  /-- Forwarded backend response, `X-Cache: MISS`. -/
  | miss : String → Nat → JsonValue → MWResult
  /-- A caught `HTTPException` from forwarding (status, detail). -/
  | gatewayError : String → Nat → String → MWResult
deriving Repr

/-- The gateway-owned paths the middleware forwards straight to
`call_next`. -/
def bypassPaths : List String := ["/health", "/metrics", "/docs", "/openapi.json"]

/-- Pipeline `gateway_middleware` over one request.  `backend` is the
behaviour of the outbound call should one be made.  Returns the
terminal result, the number of outbound backend calls made (0 or 1),
and the final storage. -/
def gateway_middleware (st : InMemoryStorage) (current_time : Nat)
    (req : GatewayRequest) (backend : ForwardOutcome) :
    MWResult × Nat × InMemoryStorage :=
  let st := { st with stats := { st.stats with total_requests := st.stats.total_requests + 1 } }
  if bypassPaths.contains req.path then
    (.bypass, 0, st)
  else
    match find_service req.path with
    | none => (.notFound req.path, 0, st)
    | some service_name =>
      let user_id := headerGet req.headers "X-User-ID" "anonymous"
      let tier := headerGet req.headers "X-User-Tier" "default"
      let rl := check_rate_limit st current_time user_id tier
      if rl.1 = false then (.rateLimited, 0, rl.2)
      else
        let cb := check_circuit_breaker rl.2 current_time service_name
        if cb.1 = false then (.circuitOpenResp service_name, 0, cb.2)
        else
          let cache_key := req.path ++ "?" ++ req.query
          let cacheStep : Option JsonValue × InMemoryStorage :=
            if req.method = "GET" then
              let g := cache_get cb.2 current_time cache_key
              match g.1 with
              | some v => (if v.truthy then some v else none, g.2)
              | none => (none, g.2)
            else (none, cb.2)
          match cacheStep.1 with
          | some v =>
            let st' := cacheStep.2
            let st' := { st' with stats := { st'.stats with cached_requests := st'.stats.cached_requests + 1 } }
            (.hit service_name v, 0, st')
          | none =>
            let fr := forward_request cacheStep.2 current_time service_name backend
            match fr.1 with
            | .response status body =>
              let st' :=
                if req.method = "GET" ∧ status = 200 then
                  cache_set fr.2 current_time cache_key body 300
                else fr.2
              (.miss service_name status body, 1, st')
            | .httpError code detail =>
              (.gatewayError service_name code detail, 1, fr.2)

/-- The static service descriptor returned by the `root` handler
(`GET /`). -/
def root_response : JsonValue :=
  .obj [("service", .str "API Gateway"), ("version", .str "1.0.0"),
        ("status", .str "running"),
        ("endpoints", .obj [("health", .str "/health"), ("metrics", .str "/metrics"),
                            ("docs", .str "/docs")])]

/-- Iterate `check_rate_limit` for one client at a fixed time,
collecting the verdicts in order together with the final storage. -/
def runChecks (st : InMemoryStorage) (t : Nat) (uid tier : String) :
    Nat → List Bool × InMemoryStorage
  | 0 => ([], st)
  | n + 1 =>
    let r := check_rate_limit st t uid tier
    let rest := runChecks r.2 t uid tier n
    (r.1 :: rest.1, rest.2)

theorem lookup_setA_self {β : Type} (k : String) (v : β) (l : List (String × β)) :
    (setA k v l).lookup k = some v := by
  induction l with
  | nil => simp [setA, List.lookup]
  | cons hd tl ih =>
    obtain ⟨k', w⟩ := hd
    by_cases h : k' = k
    · simp [setA, h, List.lookup]
    · have hne : (k == k') = false := by
        simp [BEq.beq]
        exact fun he => h he.symm
      simp [setA, h, List.lookup, hne, ih]

theorem lookup_setA_ne {β : Type} {k k' : String} (v : β) (l : List (String × β))
    (h : k' ≠ k) :
    (setA k v l).lookup k' = l.lookup k' := by
  induction l with
  | nil =>
    have hne : (k' == k) = false := by
      simp [BEq.beq]
      exact h
    simp [setA, List.lookup, hne]
  | cons hd tl ih =>
    obtain ⟨ka, w⟩ := hd
    by_cases hk : ka = k
    · subst hk
      have hne : (k' == ka) = false := by
        simp [BEq.beq]
        exact h
      simp [setA, List.lookup, hne]
    · simp [setA, hk, List.lookup, ih]

theorem setA_setA {β : Type} (k : String) (v v' : β) (l : List (String × β)) :
    setA k v (setA k v' l) = setA k v l := by
  induction l with
  | nil => simp [setA]
  | cons hd tl ih =>
    obtain ⟨k', w⟩ := hd
    by_cases h : k' = k
    · simp [setA, h]
    · simp [setA, h, ih]

theorem one_le_rateLimitFor (tier : String) : 1 ≤ rateLimitFor tier := by
  unfold rateLimitFor RATE_LIMITS
  simp only [List.lookup]
  rcases h1 : tier == "default" with _ | _ <;>
    rcases h2 : tier == "anonymous" with _ | _ <;>
      rcases h3 : tier == "premium" with _ | _ <;>
        simp [h1, h2, h3, Option.getD]

theorem check_rate_limit_in_window (st : InMemoryStorage) (t : Nat) (key tier : String)
    (d : RateLimitData) (hd : st.rate_limits.lookup key = some d)
    (ht : ¬ t > d.reset_time) :
    check_rate_limit st t key tier
      = (decide (d.count + 1 ≤ rateLimitFor tier),
         { st with rate_limits := setA key ⟨d.count + 1, d.reset_time⟩ st.rate_limits }) := by
  unfold check_rate_limit increment_rate_limit get_rate_limit_data
  simp [hd, ht, setA_setA]

theorem check_rate_limit_expired (st : InMemoryStorage) (t : Nat) (key tier : String)
    (d : RateLimitData) (hd : st.rate_limits.lookup key = some d)
    (ht : t > d.reset_time) :
    check_rate_limit st t key tier
      = (true, { st with rate_limits := setA key ⟨1, t + 60⟩ st.rate_limits }) := by
  unfold check_rate_limit increment_rate_limit get_rate_limit_data
  simp [hd, ht, setA_setA, Nat.succ_le_of_lt, one_le_rateLimitFor tier]

theorem check_rate_limit_fresh (st : InMemoryStorage) (t : Nat) (key tier : String)
    (hd : st.rate_limits.lookup key = none) :
    check_rate_limit st t key tier
      = (true, { st with rate_limits := setA key ⟨1, t + 60⟩ st.rate_limits }) := by
  unfold check_rate_limit increment_rate_limit get_rate_limit_data
  have hlt : ¬ (t + 60 < t) := by omega
  simp [hd, hlt, setA_setA, one_le_rateLimitFor tier]

theorem runChecks_in_window (t : Nat) (key tier : String) :
    ∀ (n : Nat) (st : InMemoryStorage) (d : RateLimitData),
      st.rate_limits.lookup key = some d → ¬ t > d.reset_time →
      (runChecks st t key tier n).1
          = (List.range n).map (fun i => decide (d.count + i + 1 ≤ rateLimitFor tier)) ∧
      (runChecks st t key tier n).2.rate_limits.lookup key
          = some ⟨d.count + n, d.reset_time⟩ := by
  intro n
  induction n with
  | zero =>
    intro st d hd ht
    simpa [runChecks] using hd
  | succ n ih =>
    intro st d hd ht
    have hs := check_rate_limit_in_window st t key tier d hd ht
    have hd' : ({ st with rate_limits := setA key ⟨d.count + 1, d.reset_time⟩ st.rate_limits}
        : InMemoryStorage).rate_limits.lookup key = some ⟨d.count + 1, d.reset_time⟩ := by
      simpa using lookup_setA_self key _ st.rate_limits
    have hrec := ih _ ⟨d.count + 1, d.reset_time⟩ hd' ht
    constructor
    · show (runChecks st t key tier (n + 1)).1 = _
      unfold runChecks
      rw [hs]
      simp only [hrec.1, List.range_succ_eq_map, List.map_cons, List.map_map, Nat.add_zero]
      refine List.cons_eq_cons.mpr ⟨rfl, ?_⟩
      apply List.map_congr_left
      intro i _
      have hi : d.count + 1 + i + 1 = d.count + (i + 1) + 1 := by omega
      simp [Function.comp_apply, Nat.succ_eq_add_one, hi]
    · show (runChecks st t key tier (n + 1)).2.rate_limits.lookup key = _
      unfold runChecks
      rw [hs]
      have := hrec.2
      simpa [Nat.add_assoc, Nat.add_comm 1 n] using this

theorem range_map_first_allowed (L : Nat) :
    (List.range (L + 1)).map (fun i => decide (0 + i + 1 ≤ L))
      = List.replicate L true ++ [false] := by
  have h1 : (List.range L).map (fun i => decide (0 + i + 1 ≤ L))
      = List.replicate L true := by
    apply List.eq_replicate_iff.mpr
    refine ⟨by simp, ?_⟩
    intro b hb
    simp only [List.mem_map, List.mem_range] at hb
    obtain ⟨i, hi, rfl⟩ := hb
    simp
    omega
  rw [List.range_succ, List.map_append, h1]
  simp

/-- C2: within an unexpired window the first `limit[T]` accounted
requests are allowed and the next one is denied; a request arriving
strictly after the reset time resets the window and is allowed with a
fresh count of 1; unknown tiers fall back to the default ceiling. -/
theorem rate_limit_window_behavior (st : InMemoryStorage) (t : Nat) (key tier : String)
    (d : RateLimitData) (hd : st.rate_limits.lookup key = some d) :
    (d.count = 0 → ¬ t > d.reset_time →
      (runChecks st t key tier (rateLimitFor tier + 1)).1
        = List.replicate (rateLimitFor tier) true ++ [false]) ∧
    (t > d.reset_time →
      check_rate_limit st t key tier
        = (true, { st with rate_limits := setA key ⟨1, t + 60⟩ st.rate_limits })) ∧
    (RATE_LIMITS.lookup tier = none → rateLimitFor tier = rateLimitFor "default") := by
  refine ⟨?_, ?_, ?_⟩
  · intro hc ht
    have h := (runChecks_in_window t key tier (rateLimitFor tier + 1) st d hd ht).1
    rw [h, hc]
    exact range_map_first_allowed (rateLimitFor tier)
  · intro ht
    exact check_rate_limit_expired st t key tier d hd ht
  · intro hnone
    simp only [rateLimitFor, hnone, Option.getD_none]
    rfl

/-- C2 witness: tier `anonymous` (limit 50) from a zero count window at
time 50; 51 requests give 50 allows then a denial; at time 200 the
window has expired and the request is allowed with a fresh count. -/
theorem rate_limit_window_behavior_witness :
    (runChecks { emptyStorage with rate_limits := [("u", ⟨0, 100⟩)] } 50 "u" "anonymous"
        (rateLimitFor "anonymous" + 1)).1
      = List.replicate (rateLimitFor "anonymous") true ++ [false] ∧
    check_rate_limit { emptyStorage with rate_limits := [("u", ⟨0, 100⟩)] } 200 "u" "anonymous"
      = (true, { emptyStorage with rate_limits := setA "u" ⟨1, 260⟩ [("u", ⟨0, 100⟩)] }) := by
  constructor
  · exact (rate_limit_window_behavior { emptyStorage with rate_limits := [("u", ⟨0, 100⟩)] }
      50 "u" "anonymous" ⟨0, 100⟩ rfl).1 rfl (by decide)
  · exact (rate_limit_window_behavior { emptyStorage with rate_limits := [("u", ⟨0, 100⟩)] }
      200 "u" "anonymous" ⟨0, 100⟩ rfl).2.1 (by decide)

set_option maxRecDepth 40000 in
/-- C3: the counter is incremented on every checked request, denied or
not; concretely, 60 in-window requests from a fresh client at the
anonymous limit of 50 yield exactly 50 allows then 10 denials, and the
stored count afterwards is 60. -/
theorem rate_counter_counts_denied_requests :
    (∀ (st : InMemoryStorage) (t : Nat) (uid tier : String),
      (check_rate_limit st t uid tier).2.rate_limits.lookup uid
        = some ⟨(get_rate_limit_data st t uid).1.count + 1,
                (get_rate_limit_data st t uid).1.reset_time⟩) ∧
    (runChecks emptyStorage 0 "u1" "anonymous" 60).1
      = List.replicate 50 true ++ List.replicate 10 false ∧
    (runChecks emptyStorage 0 "u1" "anonymous" 60).2.rate_limits.lookup "u1"
      = some ⟨60, 60⟩ := by
  refine ⟨?_, rfl, rfl⟩
  intro st t uid tier
  unfold check_rate_limit increment_rate_limit
  simp [lookup_setA_self]

set_option maxRecDepth 4000 in
/-- C1 (code bug): the gateway-owned paths `/health`, `/metrics`,
`/docs` and `/openapi.json` bypass all gating, but the root path does
not: `/` is absent from the bypass list and matches no route prefix, so
a GET to `/` is answered by the middleware with a 404 `Route not found`
and the registered root handler returning the static service
descriptor is never reached. -/
theorem root_path_is_gated_not_bypassed :
    (gateway_middleware emptyStorage 0 ⟨"/", "", "GET", []⟩ (.success 200 root_response)).1
      = .notFound "/" ∧
    find_service "/" = none ∧
    bypassPaths.contains "/" = false ∧
    (gateway_middleware emptyStorage 0 ⟨"/health", "", "GET", []⟩ (.success 200 root_response)).1
      = .bypass ∧
    (gateway_middleware emptyStorage 0 ⟨"/metrics", "", "GET", []⟩ (.success 200 root_response)).1
      = .bypass ∧
    (gateway_middleware emptyStorage 0 ⟨"/docs", "", "GET", []⟩ (.success 200 root_response)).1
      = .bypass ∧
    (gateway_middleware emptyStorage 0 ⟨"/openapi.json", "", "GET", []⟩ (.success 200 root_response)).1
      = .bypass :=
  ⟨rfl, rfl, rfl, rfl, rfl, rfl, rfl⟩

theorem record_failure_eq (st : InMemoryStorage) (t : Nat) (svc : String)
    (cb : CircuitBreakerData) (hcb : st.circuit_breakers.lookup svc = some cb) :
    record_failure st t svc
      = { st with
          circuit_breakers := setA svc
            (if cb.state = .halfOpen then
               { cb with state := .opened, failures := cb.failures + 1, last_failure_time := t }
             else if cb.failures + 1 ≥ failure_threshold then
               { cb with state := .opened, failures := cb.failures + 1, last_failure_time := t }
             else { cb with failures := cb.failures + 1, last_failure_time := t }) st.circuit_breakers,
          stats := { st.stats with failed_requests := st.stats.failed_requests + 1 } } := by
  unfold record_failure get_circuit_breaker_state
  simp [hcb]

theorem record_failure_fresh (st : InMemoryStorage) (t : Nat) (svc : String)
    (hcb : st.circuit_breakers.lookup svc = none) :
    record_failure st t svc
      = { st with
          circuit_breakers := setA svc
            { state := .closed, failures := 1, last_failure_time := t, success_count := 0 } st.circuit_breakers,
          stats := { st.stats with failed_requests := st.stats.failed_requests + 1 } } := by
  unfold record_failure get_circuit_breaker_state
  simp [hcb, setA_setA, freshBreaker, failure_threshold]

theorem record_success_halfOpen (st : InMemoryStorage) (svc : String)
    (cb : CircuitBreakerData) (hcb : st.circuit_breakers.lookup svc = some cb)
    (hst : cb.state = .halfOpen) :
    record_success st svc
      = { st with
          circuit_breakers := setA svc
            (if cb.success_count + 1 ≥ 2 then
               { cb with state := .closed, failures := 0, success_count := cb.success_count + 1 }
             else { cb with success_count := cb.success_count + 1 }) st.circuit_breakers,
          stats := { st.stats with successful_requests := st.stats.successful_requests + 1 } } := by
  unfold record_success get_circuit_breaker_state
  simp [hcb, hst]

theorem record_success_not_halfOpen (st : InMemoryStorage) (svc : String)
    (cb : CircuitBreakerData) (hcb : st.circuit_breakers.lookup svc = some cb)
    (hst : cb.state ≠ .halfOpen) :
    record_success st svc
      = { st with
          circuit_breakers := setA svc { cb with failures := 0 } st.circuit_breakers,
          stats := { st.stats with successful_requests := st.stats.successful_requests + 1 } } := by
  unfold record_success get_circuit_breaker_state
  rcases hc : cb.state <;> simp [hcb, hc] <;> simp [hc] at hst

theorem record_success_fresh (st : InMemoryStorage) (svc : String)
    (hcb : st.circuit_breakers.lookup svc = none) :
    record_success st svc
      = { st with
          circuit_breakers := setA svc freshBreaker st.circuit_breakers,
          stats := { st.stats with successful_requests := st.stats.successful_requests + 1 } } := by
  unfold record_success get_circuit_breaker_state
  simp [hcb, freshBreaker, setA_setA]

theorem check_circuit_breaker_open_denies (st : InMemoryStorage) (t : Nat) (svc : String)
    (cb : CircuitBreakerData) (hcb : st.circuit_breakers.lookup svc = some cb)
    (hst : cb.state = .opened) (ht : ¬ t - cb.last_failure_time > cb_timeout) :
    check_circuit_breaker st t svc = (false, st) := by
  unfold check_circuit_breaker get_circuit_breaker_state
  simp [hcb, hst, ht]

theorem check_circuit_breaker_open_to_halfOpen (st : InMemoryStorage) (t : Nat) (svc : String)
    (cb : CircuitBreakerData) (hcb : st.circuit_breakers.lookup svc = some cb)
    (hst : cb.state = .opened) (ht : t - cb.last_failure_time > cb_timeout) :
    check_circuit_breaker st t svc
      = (true,
         { st with circuit_breakers := setA svc { cb with state := .halfOpen, success_count := 0 } st.circuit_breakers }) := by
  unfold check_circuit_breaker get_circuit_breaker_state
  simp [hcb, hst, ht]

theorem check_circuit_breaker_not_open (st : InMemoryStorage) (t : Nat) (svc : String)
    (cb : CircuitBreakerData) (hcb : st.circuit_breakers.lookup svc = some cb)
    (hst : cb.state ≠ .opened) :
    check_circuit_breaker st t svc = (true, st) := by
  unfold check_circuit_breaker get_circuit_breaker_state
  rcases hc : cb.state <;> simp [hcb, hc] <;> simp [hc] at hst

theorem check_circuit_breaker_fresh (st : InMemoryStorage) (t : Nat) (svc : String)
    (hcb : st.circuit_breakers.lookup svc = none) :
    check_circuit_breaker st t svc
      = (true, { st with circuit_breakers := setA svc freshBreaker st.circuit_breakers }) := by
  unfold check_circuit_breaker get_circuit_breaker_state
  simp [hcb, freshBreaker]

/-- C4: a failure recorded while the breaker is closed increments the
failure count and stamps the failure time, and the state becomes open
exactly when the count reaches the threshold of 5; while open, the
gate denies attempts until strictly more than 60 seconds have passed
since the last failure, at which point it moves the breaker to
half-open with the success count reset to 0 and allows the attempt. -/
theorem breaker_opens_at_threshold_and_gates (st : InMemoryStorage) (t : Nat)
    (svc : String) (cb : CircuitBreakerData)
    (hcb : st.circuit_breakers.lookup svc = some cb) :
    (cb.state = .closed → cb.failures + 1 ≥ failure_threshold →
      (record_failure st t svc).circuit_breakers.lookup svc
        = some { state := .opened, failures := cb.failures + 1, last_failure_time := t,
                 success_count := cb.success_count }) ∧
    (cb.state = .closed → cb.failures + 1 < failure_threshold →
      (record_failure st t svc).circuit_breakers.lookup svc
        = some { state := .closed, failures := cb.failures + 1, last_failure_time := t,
                 success_count := cb.success_count }) ∧
    (cb.state = .opened → ¬ t - cb.last_failure_time > cb_timeout →
      check_circuit_breaker st t svc = (false, st)) ∧
    (cb.state = .opened → t - cb.last_failure_time > cb_timeout →
      check_circuit_breaker st t svc
        = (true,
           { st with circuit_breakers := setA svc { cb with state := .halfOpen, success_count := 0 } st.circuit_breakers })) := by
  refine ⟨?_, ?_, ?_, ?_⟩
  · intro hclosed hth
    rw [record_failure_eq st t svc cb hcb]
    simp [lookup_setA_self, hclosed, hth]
  · intro hclosed hth
    rw [record_failure_eq st t svc cb hcb]
    simp [lookup_setA_self, hclosed, Nat.not_le.mpr hth]
  · intro hopen ht
    exact check_circuit_breaker_open_denies st t svc cb hcb hopen ht
  · intro hopen ht
    exact check_circuit_breaker_open_to_halfOpen st t svc cb hcb hopen ht

/-- C4 witness: service `users`; a fifth failure while closed opens
the breaker at time 10, a fourth one would not; the gate denies at
time 50 and allows at time 71, moving to half-open. -/
theorem breaker_opens_at_threshold_and_gates_witness :
    (record_failure { emptyStorage with circuit_breakers := [("users", ⟨.closed, 4, 0, 0⟩)] } 10 "users").circuit_breakers.lookup "users"
      = some ⟨.opened, 5, 10, 0⟩ ∧
    check_circuit_breaker { emptyStorage with circuit_breakers := [("users", ⟨.opened, 5, 10, 0⟩)] } 50 "users"
      = (false, { emptyStorage with circuit_breakers := [("users", ⟨.opened, 5, 10, 0⟩)] }) ∧
    check_circuit_breaker { emptyStorage with circuit_breakers := [("users", ⟨.opened, 5, 10, 0⟩)] } 71 "users"
      = (true, { emptyStorage with circuit_breakers := setA "users" ⟨.halfOpen, 5, 10, 0⟩ [("users", ⟨.opened, 5, 10, 0⟩)] }) :=
  ⟨(breaker_opens_at_threshold_and_gates { emptyStorage with circuit_breakers := [("users", ⟨.closed, 4, 0, 0⟩)] }
      10 "users" ⟨.closed, 4, 0, 0⟩ rfl).1 rfl (by decide),
   (breaker_opens_at_threshold_and_gates { emptyStorage with circuit_breakers := [("users", ⟨.opened, 5, 10, 0⟩)] }
      50 "users" ⟨.opened, 5, 10, 0⟩ rfl).2.2.1 rfl (by decide),
   (breaker_opens_at_threshold_and_gates { emptyStorage with circuit_breakers := [("users", ⟨.opened, 5, 10, 0⟩)] }
      71 "users" ⟨.opened, 5, 10, 0⟩ rfl).2.2.2 rfl (by decide)⟩

/-- C5: from half-open with a zero success count, one recorded success
keeps the breaker half-open and a second one closes it with the
failure count reset to 0; a single recorded failure while half-open
opens the breaker immediately, whatever the prior success count. -/
theorem half_open_two_successes_close_one_failure_opens (st : InMemoryStorage)
    (svc : String) (t : Nat) (cb : CircuitBreakerData)
    (hcb : st.circuit_breakers.lookup svc = some cb)
    (hst : cb.state = .halfOpen) :
    (cb.success_count = 0 →
      ((record_success st svc).circuit_breakers.lookup svc).map (fun c => c.state)
        = some .halfOpen ∧
      (record_success (record_success st svc) svc).circuit_breakers.lookup svc
        = some { state := .closed, failures := 0,
                 last_failure_time := cb.last_failure_time, success_count := 2 }) ∧
    ((record_failure st t svc).circuit_breakers.lookup svc).map (fun c => c.state)
      = some .opened := by
  constructor
  · intro hsc
    have h1 : record_success st svc
        = { st with
            circuit_breakers := setA svc { cb with success_count := 1 } st.circuit_breakers,
            stats := { st.stats with successful_requests := st.stats.successful_requests + 1 } } := by
      rw [record_success_halfOpen st svc cb hcb hst]
      simp [hsc]
    have h2 : (record_success st svc).circuit_breakers.lookup svc
        = some { cb with success_count := 1 } := by
      rw [h1]
      simpa using lookup_setA_self svc _ st.circuit_breakers
    refine ⟨by simp [h2, hst], ?_⟩
    rw [record_success_halfOpen (record_success st svc) svc { cb with success_count := 1 } h2 hst]
    simp [lookup_setA_self]
  · rw [record_failure_eq st t svc cb hcb]
    simp [lookup_setA_self, hst]

/-- C5 witness: service `users` half-open with 3 recorded failures;
two successes close the breaker and reset failures, while a single
failure at time 40 reopens it. -/
theorem half_open_two_successes_close_one_failure_opens_witness :
    ((record_success { emptyStorage with circuit_breakers := [("users", ⟨.halfOpen, 3, 10, 0⟩)] } "users").circuit_breakers.lookup "users").map (fun c => c.state)
      = some .halfOpen ∧
    (record_success (record_success { emptyStorage with circuit_breakers := [("users", ⟨.halfOpen, 3, 10, 0⟩)] } "users") "users").circuit_breakers.lookup "users"
      = some ⟨.closed, 0, 10, 2⟩ ∧
    ((record_failure { emptyStorage with circuit_breakers := [("users", ⟨.halfOpen, 3, 10, 0⟩)] } 40 "users").circuit_breakers.lookup "users").map (fun c => c.state)
      = some .opened := by
  have h := half_open_two_successes_close_one_failure_opens
    { emptyStorage with circuit_breakers := [("users", ⟨.halfOpen, 3, 10, 0⟩)] } "users" 40
    ⟨.halfOpen, 3, 10, 0⟩ rfl rfl
  exact ⟨(h.1 rfl).1, (h.1 rfl).2, h.2⟩

theorem lookup_eq_none_of_not_mem_keys {β : Type} (k : String) (l : List (String × β))
    (h : k ∉ l.map Prod.fst) : l.lookup k = none := by
  induction l with
  | nil => rfl
  | cons hd tl ih =>
    obtain ⟨k', w⟩ := hd
    simp only [List.map_cons, List.mem_cons, not_or] at h
    simp [List.lookup, beq_eq_false_iff_ne.mpr h.1, ih h.2]

theorem mem_keys_setA {β : Type} {a k : String} (v : β) (l : List (String × β)) :
    a ∈ (setA k v l).map Prod.fst ↔ a = k ∨ a ∈ l.map Prod.fst := by
  induction l with
  | nil => simp [setA]
  | cons hd tl ih =>
    obtain ⟨k', w⟩ := hd
    by_cases hk : k' = k
    · subst hk
      simp [setA]
    · simp only [setA, if_neg hk, List.map_cons, List.mem_cons, ih]
      tauto

theorem keys_nodup_setA {β : Type} (k : String) (v : β) (l : List (String × β))
    (h : (l.map Prod.fst).Nodup) : ((setA k v l).map Prod.fst).Nodup := by
  induction l with
  | nil => simp [setA]
  | cons hd tl ih =>
    obtain ⟨k', w⟩ := hd
    simp only [List.map_cons, List.nodup_cons] at h
    by_cases hk : k' = k
    · subst hk
      rw [show setA k' v ((k', w) :: tl) = (k', v) :: tl from by simp [setA]]
      simp only [List.map_cons, List.nodup_cons]
      exact ⟨h.1, h.2⟩
    · simp only [setA, if_neg hk, List.map_cons, List.nodup_cons]
      refine ⟨?_, ih h.2⟩
      rw [mem_keys_setA]
      push_neg
      exact ⟨hk, h.1⟩

theorem lookup_eraseA_self {β : Type} (k : String) (l : List (String × β))
    (h : (l.map Prod.fst).Nodup) : (eraseA k l).lookup k = none := by
  induction l with
  | nil => rfl
  | cons hd tl ih =>
    obtain ⟨k', w⟩ := hd
    simp only [List.map_cons, List.nodup_cons] at h
    by_cases hk : k' = k
    · subst hk
      simp only [eraseA, if_pos rfl]
      exact lookup_eq_none_of_not_mem_keys k' tl h.1
    · simp [eraseA, hk, List.lookup, beq_eq_false_iff_ne.mpr (fun he => hk he.symm), ih h.2]

/-- C6: after `cache_set k v` with a TTL of 300 at time `t0`, a
`cache_get k` at or before `t0 + 300` returns the value and leaves the
store untouched (no expiry refresh); a `cache_get k` strictly after
`t0 + 300` returns nothing and deletes the entry. -/
theorem cache_ttl_roundtrip (st : InMemoryStorage) (t0 t1 : Nat) (k : String)
    (v : JsonValue) (hnodup : (st.cache.map Prod.fst).Nodup) :
    (¬ t1 > t0 + 300 →
      cache_get (cache_set st t0 k v 300) t1 k
        = (some v, cache_set st t0 k v 300)) ∧
    (t1 > t0 + 300 →
      (cache_get (cache_set st t0 k v 300) t1 k).1 = none ∧
      (cache_get (cache_set st t0 k v 300) t1 k).2.cache.lookup k = none ∧
      (cache_get (cache_set st t0 k v 300) t1 k).2.cache
        = eraseA k (cache_set st t0 k v 300).cache) := by
  have hl : (cache_set st t0 k v 300).cache.lookup k
      = some { value := v, expires_at := t0 + 300 } := by
    unfold cache_set
    simpa using lookup_setA_self k _ st.cache
  constructor
  · intro ht
    unfold cache_get
    simp [hl, ht]
  · intro ht
    unfold cache_get
    simp only [hl]
    rw [if_pos ht]
    exact ⟨rfl, lookup_eraseA_self k _ (keys_nodup_setA k _ _ hnodup), rfl⟩

/-- C6 witness: a value cached at time 0 is read back at time 300 with
the store unchanged; at time 301 the read returns nothing and the
entry is gone. -/
theorem cache_ttl_roundtrip_witness :
    cache_get (cache_set emptyStorage 0 "k" (.num 7) 300) 300 "k"
      = (some (.num 7), cache_set emptyStorage 0 "k" (.num 7) 300) ∧
    (cache_get (cache_set emptyStorage 0 "k" (.num 7) 300) 301 "k").1 = none ∧
    (cache_get (cache_set emptyStorage 0 "k" (.num 7) 300) 301 "k").2.cache.lookup "k"
      = none := by
  have h1 := cache_ttl_roundtrip emptyStorage 0 300 "k" (.num 7) (by simp [emptyStorage])
  have h2 := cache_ttl_roundtrip emptyStorage 0 301 "k" (.num 7) (by simp [emptyStorage])
  exact ⟨h1.1 (by decide), (h2.2 (by decide)).1, (h2.2 (by decide)).2.1⟩

/-- C8: the forwarding client reports a transport failure to the
breaker exactly once (the failure count of the service rises by
exactly 1) and classifies it as 504 on timeout, 503 on connection
failure, and 502 with the underlying error text otherwise; a
successful call reports success and returns the backend response. -/
theorem forward_failures_reported_once_and_classified (st : InMemoryStorage)
    (t : Nat) (svc : String) :
    (∀ status body, forward_request st t svc (.success status body)
        = (.response status body, record_success st svc)) ∧
    forward_request st t svc .timeout
        = (.httpError 504 ("Gateway timeout: " ++ svc), record_failure st t svc) ∧
    forward_request st t svc .connectError
        = (.httpError 503 ("Service unavailable: " ++ svc), record_failure st t svc) ∧
    (∀ msg, forward_request st t svc (.otherError msg)
        = (.httpError 502 ("Bad gateway: " ++ msg), record_failure st t svc)) ∧
    ((record_failure st t svc).circuit_breakers.lookup svc).map (fun c => c.failures)
        = some ((get_circuit_breaker_state st svc).1.failures + 1) := by
  refine ⟨fun _ _ => rfl, rfl, rfl, fun _ => rfl, ?_⟩
  rcases hcb : st.circuit_breakers.lookup svc with _ | cb
  · rw [record_failure_fresh st t svc hcb]
    simp [lookup_setA_self, get_circuit_breaker_state, hcb, freshBreaker]
  · rw [record_failure_eq st t svc cb hcb]
    simp only [lookup_setA_self, get_circuit_breaker_state, hcb, Option.map_some]
    split
    · rfl
    · split
      · rfl
      · rfl


theorem not_bypass_of_routed {path svc : String} (h : find_service path = some svc) :
    bypassPaths.contains path = false := by
  rcases hc : bypassPaths.contains path with _ | _
  · rfl
  · exfalso
    have hm : path ∈ bypassPaths := by simpa using hc
    simp only [bypassPaths, List.mem_cons, List.not_mem_nil, or_false] at hm
    rcases hm with rfl | rfl | rfl | rfl
    · rw [show find_service "/health" = none from rfl] at h
      exact Option.noConfusion h
    · rw [show find_service "/metrics" = none from rfl] at h
      exact Option.noConfusion h
    · rw [show find_service "/docs" = none from rfl] at h
      exact Option.noConfusion h
    · rw [show find_service "/openapi.json" = none from rfl] at h
      exact Option.noConfusion h

theorem check_rate_limit_preserves_breakers (st : InMemoryStorage) (t : Nat)
    (u tier : String) :
    (check_rate_limit st t u tier).2.circuit_breakers = st.circuit_breakers := rfl

theorem check_rate_limit_preserves_cache (st : InMemoryStorage) (t : Nat)
    (u tier : String) :
    (check_rate_limit st t u tier).2.cache = st.cache := rfl

theorem mw_rateLimited_eq (st : InMemoryStorage) (t : Nat) (req : GatewayRequest)
    (backend : ForwardOutcome) (svc : String) (st2 : InMemoryStorage)
    (hf : find_service req.path = some svc)
    (hrl : check_rate_limit
        { st with stats := { st.stats with total_requests := st.stats.total_requests + 1 } } t
        (headerGet req.headers "X-User-ID" "anonymous")
        (headerGet req.headers "X-User-Tier" "default") = (false, st2)) :
    gateway_middleware st t req backend = (.rateLimited, 0, st2) := by
  have hnb : req.path ∉ bypassPaths := by simpa using not_bypass_of_routed hf
  unfold gateway_middleware
  simp [hnb, hf, hrl]

theorem mw_circuitOpen_eq (st : InMemoryStorage) (t : Nat) (req : GatewayRequest)
    (backend : ForwardOutcome) (svc : String) (st2 st3 : InMemoryStorage)
    (hf : find_service req.path = some svc)
    (hrl : check_rate_limit
        { st with stats := { st.stats with total_requests := st.stats.total_requests + 1 } } t
        (headerGet req.headers "X-User-ID" "anonymous")
        (headerGet req.headers "X-User-Tier" "default") = (true, st2))
    (hcb : check_circuit_breaker st2 t svc = (false, st3)) :
    gateway_middleware st t req backend = (.circuitOpenResp svc, 0, st3) := by
  have hnb : req.path ∉ bypassPaths := by simpa using not_bypass_of_routed hf
  unfold gateway_middleware
  simp [hnb, hf, hrl, hcb]

theorem mw_hit_eq (st : InMemoryStorage) (t : Nat) (req : GatewayRequest)
    (backend : ForwardOutcome) (svc : String) (st2 st3 st4 : InMemoryStorage)
    (v : JsonValue)
    (hf : find_service req.path = some svc)
    (hrl : check_rate_limit
        { st with stats := { st.stats with total_requests := st.stats.total_requests + 1 } } t
        (headerGet req.headers "X-User-ID" "anonymous")
        (headerGet req.headers "X-User-Tier" "default") = (true, st2))
    (hcb : check_circuit_breaker st2 t svc = (true, st3))
    (hm : req.method = "GET")
    (hcg : cache_get st3 t (req.path ++ "?" ++ req.query) = (some v, st4))
    (htr : v.truthy = true) :
    gateway_middleware st t req backend
      = (.hit svc v, 0,
         { st4 with stats := { st4.stats with cached_requests := st4.stats.cached_requests + 1 } }) := by
  have hnb : req.path ∉ bypassPaths := by simpa using not_bypass_of_routed hf
  unfold gateway_middleware
  simp [hnb, hf, hrl, hcb, hm, hcg, htr]

theorem mw_miss_success200_eq (st : InMemoryStorage) (t : Nat) (req : GatewayRequest)
    (svc : String) (st2 st3 st4 : InMemoryStorage) (body : JsonValue)
    (hf : find_service req.path = some svc)
    (hrl : check_rate_limit
        { st with stats := { st.stats with total_requests := st.stats.total_requests + 1 } } t
        (headerGet req.headers "X-User-ID" "anonymous")
        (headerGet req.headers "X-User-Tier" "default") = (true, st2))
    (hcb : check_circuit_breaker st2 t svc = (true, st3))
    (hm : req.method = "GET")
    (hcg : cache_get st3 t (req.path ++ "?" ++ req.query) = (none, st4)) :
    gateway_middleware st t req (.success 200 body)
      = (.miss svc 200 body, 1,
         cache_set (record_success st4 svc) t (req.path ++ "?" ++ req.query) body 300) := by
  have hnb : req.path ∉ bypassPaths := by simpa using not_bypass_of_routed hf
  unfold gateway_middleware
  simp [hnb, hf, hrl, hcb, hm, hcg, forward_request]

theorem mw_falsy_forwards (st : InMemoryStorage) (t : Nat) (req : GatewayRequest)
    (backend : ForwardOutcome) (svc : String) (st2 st3 st4 : InMemoryStorage)
    (v : JsonValue)
    (hf : find_service req.path = some svc)
    (hrl : check_rate_limit
        { st with stats := { st.stats with total_requests := st.stats.total_requests + 1 } } t
        (headerGet req.headers "X-User-ID" "anonymous")
        (headerGet req.headers "X-User-Tier" "default") = (true, st2))
    (hcb : check_circuit_breaker st2 t svc = (true, st3))
    (hm : req.method = "GET")
    (hcg : cache_get st3 t (req.path ++ "?" ++ req.query) = (some v, st4))
    (htr : v.truthy = false) :
    (gateway_middleware st t req backend).2.1 = 1 ∧
    (∀ s w, (gateway_middleware st t req backend).1 ≠ .hit s w) := by
  have hnb : req.path ∉ bypassPaths := by simpa using not_bypass_of_routed hf
  unfold gateway_middleware
  rcases backend with ⟨status, body⟩ | _ | _ | msg <;>
    simp [hnb, hf, hrl, hcb, hm, hcg, htr, forward_request]

theorem check_circuit_breaker_denied_state (st : InMemoryStorage) (t : Nat) (s : String)
    (h : (check_circuit_breaker st t s).1 = false) :
    (check_circuit_breaker st t s).2 = st := by
  rcases hcb : st.circuit_breakers.lookup s with _ | cb
  · rw [check_circuit_breaker_fresh st t s hcb] at h
    simp at h
  · rcases hs : cb.state with _ | _ | _
    · rw [check_circuit_breaker_not_open st t s cb hcb (by simp [hs])] at h
      simp at h
    · by_cases ht : t - cb.last_failure_time > cb_timeout
      · rw [check_circuit_breaker_open_to_halfOpen st t s cb hcb hs ht] at h
        simp at h
      · rw [check_circuit_breaker_open_denies st t s cb hcb hs ht]
    · rw [check_circuit_breaker_not_open st t s cb hcb (by simp [hs])] at h
      simp at h

/-- C9: a request terminated by a gating denial, whether a rate-limit
denial or a circuit-open denial, leaves the circuit-breaker store
exactly as it was, so no failure counter moves and no breaker state
changes. -/
theorem gating_denials_do_not_touch_breaker (st : InMemoryStorage) (t : Nat)
    (req : GatewayRequest) (backend : ForwardOutcome)
    (h : (gateway_middleware st t req backend).1 = .rateLimited ∨
         ∃ s, (gateway_middleware st t req backend).1 = .circuitOpenResp s) :
    (gateway_middleware st t req backend).2.2.circuit_breakers = st.circuit_breakers := by
  by_cases hb : req.path ∈ bypassPaths
  · unfold gateway_middleware
    simp [hb]
  · rcases hf : find_service req.path with _ | svc
    · unfold gateway_middleware
      simp [hb, hf]
    · rcases hrl : check_rate_limit
          { st with stats := { st.stats with total_requests := st.stats.total_requests + 1 } } t
          (headerGet req.headers "X-User-ID" "anonymous")
          (headerGet req.headers "X-User-Tier" "default") with ⟨allowed, st2⟩
      have hst2 : st2.circuit_breakers = st.circuit_breakers := by
        have hcrl := check_rate_limit_preserves_breakers
          { st with stats := { st.stats with total_requests := st.stats.total_requests + 1 } } t
          (headerGet req.headers "X-User-ID" "anonymous")
          (headerGet req.headers "X-User-Tier" "default")
        rw [hrl] at hcrl
        exact hcrl
      rcases allowed with _ | _
      · rw [mw_rateLimited_eq st t req backend svc st2 hf hrl]
        exact hst2
      · rcases hcb2 : check_circuit_breaker st2 t svc with ⟨ok, st3⟩
        rcases ok with _ | _
        · rw [mw_circuitOpen_eq st t req backend svc st2 st3 hf hrl hcb2]
          have h3 : st3 = st2 := by
            have hd := check_circuit_breaker_denied_state st2 t svc (by rw [hcb2])
            rw [hcb2] at hd
            exact hd
          rw [show (MWResult.circuitOpenResp svc, 0, st3).2.2 = st3 from rfl, h3]
          exact hst2
        · exfalso
          unfold gateway_middleware at h
          by_cases hm : req.method = "GET"
          · rcases hcg : cache_get st3 t (req.path ++ "?" ++ req.query) with ⟨cv, st4⟩
            rcases cv with _ | v
            · rcases backend with ⟨status, body⟩ | _ | _ | msg <;>
                simp [hb, hf, hrl, hcb2, hm, hcg, forward_request] at h
            · by_cases hv : v.truthy <;>
                rcases backend with ⟨status, body⟩ | _ | _ | msg <;>
                  simp [hb, hf, hrl, hcb2, hm, hcg, hv, forward_request] at h
          · rcases backend with ⟨status, body⟩ | _ | _ | msg <;>
              simp [hb, hf, hrl, hcb2, hm, forward_request] at h

set_option maxRecDepth 20000 in
/-- C7 counterexample: the backend returns status 200 with the falsy
payload of an empty JSON object; the first GET stores it in the cache
under the exact path-plus-query key, yet the second identical GET
within the TTL is not a cache hit: it is forwarded again (one more
outbound call, a miss response), because the hit branch tests Python
truthiness of the cached value. -/
theorem get_caching_not_idempotent_for_falsy_payload :
    (gateway_middleware emptyStorage 0 ⟨"/api/users", "", "GET", []⟩
        (.success 200 (.obj []))).2.2.cache.lookup "/api/users?"
      = some ⟨.obj [], 300⟩ ∧
    (gateway_middleware (gateway_middleware emptyStorage 0 ⟨"/api/users", "", "GET", []⟩
        (.success 200 (.obj []))).2.2 0 ⟨"/api/users", "", "GET", []⟩ (.success 200 (.obj []))).1
      = .miss "users" 200 (.obj []) ∧
    (gateway_middleware (gateway_middleware emptyStorage 0 ⟨"/api/users", "", "GET", []⟩
        (.success 200 (.obj []))).2.2 0 ⟨"/api/users", "", "GET", []⟩ (.success 200 (.obj []))).2.1
      = 1 :=
  ⟨rfl, rfl, rfl⟩

/-- C7 (amended): for every routed path-plus-query, two consecutive
GETs within the TTL are idempotent provided the 200 payload stored by
the first request is truthy: the first is a miss that makes exactly
one outbound call and stores the payload under the exact
path-plus-raw-query key, and the second is a hit with the identical
payload and zero outbound calls. -/
theorem get_caching_idempotent_for_truthy_payload (path query svc : String)
    (body : JsonValue) (t t2 : Nat) (backend2 : ForwardOutcome)
    (hroute : find_service path = some svc) (htruthy : body.truthy = true)
    (ht2 : t2 ≤ t + 300) :
    (gateway_middleware emptyStorage t ⟨path, query, "GET", []⟩ (.success 200 body)).1
      = .miss svc 200 body ∧
    (gateway_middleware emptyStorage t ⟨path, query, "GET", []⟩ (.success 200 body)).2.1 = 1 ∧
    (gateway_middleware emptyStorage t ⟨path, query, "GET", []⟩ (.success 200 body)).2.2.cache.lookup
        (path ++ "?" ++ query) = some ⟨body, t + 300⟩ ∧
    (gateway_middleware (gateway_middleware emptyStorage t ⟨path, query, "GET", []⟩
        (.success 200 body)).2.2 t2 ⟨path, query, "GET", []⟩ backend2).1 = .hit svc body ∧
    (gateway_middleware (gateway_middleware emptyStorage t ⟨path, query, "GET", []⟩
        (.success 200 body)).2.2 t2 ⟨path, query, "GET", []⟩ backend2).2.1 = 0 := by
  have hrl1 : check_rate_limit { emptyStorage with stats := { emptyStorage.stats with total_requests := emptyStorage.stats.total_requests + 1 } } t "anonymous" "default"
      = (true, { rate_limits := [("anonymous", ⟨1, t + 60⟩)], circuit_breakers := [], cache := [], stats := ⟨1, 0, 0, 0⟩ }) :=
    (check_rate_limit_fresh { emptyStorage with stats := { emptyStorage.stats with total_requests := emptyStorage.stats.total_requests + 1 } } t "anonymous" "default" rfl).trans rfl
  have hcb1 : check_circuit_breaker { rate_limits := [("anonymous", ⟨1, t + 60⟩)], circuit_breakers := [], cache := [], stats := ⟨1, 0, 0, 0⟩ } t svc
      = (true, { rate_limits := [("anonymous", ⟨1, t + 60⟩)], circuit_breakers := [(svc, ⟨.closed, 0, 0, 0⟩)], cache := [], stats := ⟨1, 0, 0, 0⟩ }) :=
    (check_circuit_breaker_fresh { rate_limits := [("anonymous", ⟨1, t + 60⟩)], circuit_breakers := [], cache := [], stats := ⟨1, 0, 0, 0⟩ } t svc rfl).trans rfl
  have hcg1 : cache_get { rate_limits := [("anonymous", ⟨1, t + 60⟩)], circuit_breakers := [(svc, ⟨.closed, 0, 0, 0⟩)], cache := [], stats := ⟨1, 0, 0, 0⟩ } t (path ++ "?" ++ query)
      = (none, { rate_limits := [("anonymous", ⟨1, t + 60⟩)], circuit_breakers := [(svc, ⟨.closed, 0, 0, 0⟩)], cache := [], stats := ⟨1, 0, 0, 0⟩ }) := rfl
  have hrs : record_success { rate_limits := [("anonymous", ⟨1, t + 60⟩)], circuit_breakers := [(svc, ⟨.closed, 0, 0, 0⟩)], cache := [], stats := ⟨1, 0, 0, 0⟩ } svc
      = { rate_limits := [("anonymous", ⟨1, t + 60⟩)], circuit_breakers := setA svc ⟨.closed, 0, 0, 0⟩ [(svc, ⟨.closed, 0, 0, 0⟩)], cache := [], stats := ⟨1, 1, 0, 0⟩ } :=
    (record_success_not_halfOpen { rate_limits := [("anonymous", ⟨1, t + 60⟩)], circuit_breakers := [(svc, ⟨.closed, 0, 0, 0⟩)], cache := [], stats := ⟨1, 0, 0, 0⟩ } svc ⟨.closed, 0, 0, 0⟩ (by simp [List.lookup]) (by simp)).trans rfl
  have e1 : gateway_middleware emptyStorage t ⟨path, query, "GET", []⟩ (.success 200 body)
      = (.miss svc 200 body, 1, { rate_limits := [("anonymous", ⟨1, t + 60⟩)], circuit_breakers := setA svc ⟨.closed, 0, 0, 0⟩ [(svc, ⟨.closed, 0, 0, 0⟩)], cache := [(path ++ "?" ++ query, ⟨body, t + 300⟩)], stats := ⟨1, 1, 0, 0⟩ }) := by
    rw [mw_miss_success200_eq emptyStorage t ⟨path, query, "GET", []⟩ svc _ _ _ body hroute hrl1 hcb1 rfl hcg1, hrs]
    rfl
  have hcbproj : (setA svc (⟨.closed, 0, 0, 0⟩ : CircuitBreakerData) [(svc, ⟨.closed, 0, 0, 0⟩)]).lookup svc = some ⟨.closed, 0, 0, 0⟩ :=
    lookup_setA_self svc _ _
  have e2 : (gateway_middleware { rate_limits := [("anonymous", ⟨1, t + 60⟩)], circuit_breakers := setA svc ⟨.closed, 0, 0, 0⟩ [(svc, ⟨.closed, 0, 0, 0⟩)], cache := [(path ++ "?" ++ query, ⟨body, t + 300⟩)], stats := ⟨1, 1, 0, 0⟩ } t2 ⟨path, query, "GET", []⟩ backend2).1 = .hit svc body ∧
      (gateway_middleware { rate_limits := [("anonymous", ⟨1, t + 60⟩)], circuit_breakers := setA svc ⟨.closed, 0, 0, 0⟩ [(svc, ⟨.closed, 0, 0, 0⟩)], cache := [(path ++ "?" ++ query, ⟨body, t + 300⟩)], stats := ⟨1, 1, 0, 0⟩ } t2 ⟨path, query, "GET", []⟩ backend2).2.1 = 0 := by
    by_cases h60 : t + 60 < t2
    · have hrl2 : check_rate_limit { rate_limits := [("anonymous", ⟨1, t + 60⟩)], circuit_breakers := setA svc ⟨.closed, 0, 0, 0⟩ [(svc, ⟨.closed, 0, 0, 0⟩)], cache := [(path ++ "?" ++ query, ⟨body, t + 300⟩)], stats := ⟨2, 1, 0, 0⟩ } t2 "anonymous" "default"
          = (true, { rate_limits := [("anonymous", ⟨1, t2 + 60⟩)], circuit_breakers := setA svc ⟨.closed, 0, 0, 0⟩ [(svc, ⟨.closed, 0, 0, 0⟩)], cache := [(path ++ "?" ++ query, ⟨body, t + 300⟩)], stats := ⟨2, 1, 0, 0⟩ }) :=
        (check_rate_limit_expired { rate_limits := [("anonymous", ⟨1, t + 60⟩)], circuit_breakers := setA svc ⟨.closed, 0, 0, 0⟩ [(svc, ⟨.closed, 0, 0, 0⟩)], cache := [(path ++ "?" ++ query, ⟨body, t + 300⟩)], stats := ⟨2, 1, 0, 0⟩ } t2 "anonymous" "default" ⟨1, t + 60⟩ rfl h60).trans rfl
      have hcb2 : check_circuit_breaker { rate_limits := [("anonymous", ⟨1, t2 + 60⟩)], circuit_breakers := setA svc ⟨.closed, 0, 0, 0⟩ [(svc, ⟨.closed, 0, 0, 0⟩)], cache := [(path ++ "?" ++ query, ⟨body, t + 300⟩)], stats := ⟨2, 1, 0, 0⟩ } t2 svc
          = (true, { rate_limits := [("anonymous", ⟨1, t2 + 60⟩)], circuit_breakers := setA svc ⟨.closed, 0, 0, 0⟩ [(svc, ⟨.closed, 0, 0, 0⟩)], cache := [(path ++ "?" ++ query, ⟨body, t + 300⟩)], stats := ⟨2, 1, 0, 0⟩ }) :=
        check_circuit_breaker_not_open { rate_limits := [("anonymous", ⟨1, t2 + 60⟩)], circuit_breakers := setA svc ⟨.closed, 0, 0, 0⟩ [(svc, ⟨.closed, 0, 0, 0⟩)], cache := [(path ++ "?" ++ query, ⟨body, t + 300⟩)], stats := ⟨2, 1, 0, 0⟩ } t2 svc ⟨.closed, 0, 0, 0⟩ hcbproj (by simp)
      have hcg2 : cache_get { rate_limits := [("anonymous", ⟨1, t2 + 60⟩)], circuit_breakers := setA svc ⟨.closed, 0, 0, 0⟩ [(svc, ⟨.closed, 0, 0, 0⟩)], cache := [(path ++ "?" ++ query, ⟨body, t + 300⟩)], stats := ⟨2, 1, 0, 0⟩ } t2 (path ++ "?" ++ query)
          = (some body, { rate_limits := [("anonymous", ⟨1, t2 + 60⟩)], circuit_breakers := setA svc ⟨.closed, 0, 0, 0⟩ [(svc, ⟨.closed, 0, 0, 0⟩)], cache := [(path ++ "?" ++ query, ⟨body, t + 300⟩)], stats := ⟨2, 1, 0, 0⟩ }) := by
        unfold cache_get
        simp [List.lookup, show ¬ (t + 300 < t2) from by omega]
      rw [mw_hit_eq _ t2 ⟨path, query, "GET", []⟩ backend2 svc _ _ _ body hroute hrl2 hcb2 rfl hcg2 htruthy]
      exact ⟨rfl, rfl⟩
    · have hrl2 : check_rate_limit { rate_limits := [("anonymous", ⟨1, t + 60⟩)], circuit_breakers := setA svc ⟨.closed, 0, 0, 0⟩ [(svc, ⟨.closed, 0, 0, 0⟩)], cache := [(path ++ "?" ++ query, ⟨body, t + 300⟩)], stats := ⟨2, 1, 0, 0⟩ } t2 "anonymous" "default"
          = (true, { rate_limits := [("anonymous", ⟨2, t + 60⟩)], circuit_breakers := setA svc ⟨.closed, 0, 0, 0⟩ [(svc, ⟨.closed, 0, 0, 0⟩)], cache := [(path ++ "?" ++ query, ⟨body, t + 300⟩)], stats := ⟨2, 1, 0, 0⟩ }) :=
        (check_rate_limit_in_window { rate_limits := [("anonymous", ⟨1, t + 60⟩)], circuit_breakers := setA svc ⟨.closed, 0, 0, 0⟩ [(svc, ⟨.closed, 0, 0, 0⟩)], cache := [(path ++ "?" ++ query, ⟨body, t + 300⟩)], stats := ⟨2, 1, 0, 0⟩ } t2 "anonymous" "default" ⟨1, t + 60⟩ rfl h60).trans rfl
      have hcb2 : check_circuit_breaker { rate_limits := [("anonymous", ⟨2, t + 60⟩)], circuit_breakers := setA svc ⟨.closed, 0, 0, 0⟩ [(svc, ⟨.closed, 0, 0, 0⟩)], cache := [(path ++ "?" ++ query, ⟨body, t + 300⟩)], stats := ⟨2, 1, 0, 0⟩ } t2 svc
          = (true, { rate_limits := [("anonymous", ⟨2, t + 60⟩)], circuit_breakers := setA svc ⟨.closed, 0, 0, 0⟩ [(svc, ⟨.closed, 0, 0, 0⟩)], cache := [(path ++ "?" ++ query, ⟨body, t + 300⟩)], stats := ⟨2, 1, 0, 0⟩ }) :=
        check_circuit_breaker_not_open { rate_limits := [("anonymous", ⟨2, t + 60⟩)], circuit_breakers := setA svc ⟨.closed, 0, 0, 0⟩ [(svc, ⟨.closed, 0, 0, 0⟩)], cache := [(path ++ "?" ++ query, ⟨body, t + 300⟩)], stats := ⟨2, 1, 0, 0⟩ } t2 svc ⟨.closed, 0, 0, 0⟩ hcbproj (by simp)
      have hcg2 : cache_get { rate_limits := [("anonymous", ⟨2, t + 60⟩)], circuit_breakers := setA svc ⟨.closed, 0, 0, 0⟩ [(svc, ⟨.closed, 0, 0, 0⟩)], cache := [(path ++ "?" ++ query, ⟨body, t + 300⟩)], stats := ⟨2, 1, 0, 0⟩ } t2 (path ++ "?" ++ query)
          = (some body, { rate_limits := [("anonymous", ⟨2, t + 60⟩)], circuit_breakers := setA svc ⟨.closed, 0, 0, 0⟩ [(svc, ⟨.closed, 0, 0, 0⟩)], cache := [(path ++ "?" ++ query, ⟨body, t + 300⟩)], stats := ⟨2, 1, 0, 0⟩ }) := by
        unfold cache_get
        simp [List.lookup, show ¬ (t + 300 < t2) from by omega]
      rw [mw_hit_eq _ t2 ⟨path, query, "GET", []⟩ backend2 svc _ _ _ body hroute hrl2 hcb2 rfl hcg2 htruthy]
      exact ⟨rfl, rfl⟩
  exact ⟨by rw [e1], by rw [e1], by rw [e1]; simp [List.lookup], by rw [e1]; exact e2.1, by rw [e1]; exact e2.2⟩

/-- C10: the hit branch fires only on truthy cached values: with a
falsy JSON payload stored and unexpired under the key, the cache store
still returns that value, yet the pipeline treats the GET as a miss
and forwards it to the backend (one outbound call, never a hit). -/
theorem falsy_cached_value_forwarded (path query svc : String) (v : JsonValue)
    (t e : Nat) (backend : ForwardOutcome)
    (hroute : find_service path = some svc) (hfalsy : v.truthy = false)
    (hte : ¬ t > e) :
    (cache_get { emptyStorage with cache := [(path ++ "?" ++ query, ⟨v, e⟩)] } t
        (path ++ "?" ++ query)).1 = some v ∧
    (gateway_middleware { emptyStorage with cache := [(path ++ "?" ++ query, ⟨v, e⟩)] } t
        ⟨path, query, "GET", []⟩ backend).2.1 = 1 ∧
    (∀ s w, (gateway_middleware { emptyStorage with cache := [(path ++ "?" ++ query, ⟨v, e⟩)] } t
        ⟨path, query, "GET", []⟩ backend).1 ≠ .hit s w) := by
  have hcg0 : (cache_get { emptyStorage with cache := [(path ++ "?" ++ query, ⟨v, e⟩)] } t (path ++ "?" ++ query)).1 = some v := by
    unfold cache_get
    simp [List.lookup, hte]
  have hrl : check_rate_limit { rate_limits := [], circuit_breakers := [], cache := [(path ++ "?" ++ query, ⟨v, e⟩)], stats := ⟨1, 0, 0, 0⟩ } t "anonymous" "default"
      = (true, { rate_limits := [("anonymous", ⟨1, t + 60⟩)], circuit_breakers := [], cache := [(path ++ "?" ++ query, ⟨v, e⟩)], stats := ⟨1, 0, 0, 0⟩ }) :=
    (check_rate_limit_fresh { rate_limits := [], circuit_breakers := [], cache := [(path ++ "?" ++ query, ⟨v, e⟩)], stats := ⟨1, 0, 0, 0⟩ } t "anonymous" "default" rfl).trans rfl
  have hcb : check_circuit_breaker { rate_limits := [("anonymous", ⟨1, t + 60⟩)], circuit_breakers := [], cache := [(path ++ "?" ++ query, ⟨v, e⟩)], stats := ⟨1, 0, 0, 0⟩ } t svc
      = (true, { rate_limits := [("anonymous", ⟨1, t + 60⟩)], circuit_breakers := [(svc, ⟨.closed, 0, 0, 0⟩)], cache := [(path ++ "?" ++ query, ⟨v, e⟩)], stats := ⟨1, 0, 0, 0⟩ }) :=
    (check_circuit_breaker_fresh { rate_limits := [("anonymous", ⟨1, t + 60⟩)], circuit_breakers := [], cache := [(path ++ "?" ++ query, ⟨v, e⟩)], stats := ⟨1, 0, 0, 0⟩ } t svc rfl).trans rfl
  have hcg : cache_get { rate_limits := [("anonymous", ⟨1, t + 60⟩)], circuit_breakers := [(svc, ⟨.closed, 0, 0, 0⟩)], cache := [(path ++ "?" ++ query, ⟨v, e⟩)], stats := ⟨1, 0, 0, 0⟩ } t (path ++ "?" ++ query)
      = (some v, { rate_limits := [("anonymous", ⟨1, t + 60⟩)], circuit_breakers := [(svc, ⟨.closed, 0, 0, 0⟩)], cache := [(path ++ "?" ++ query, ⟨v, e⟩)], stats := ⟨1, 0, 0, 0⟩ }) := by
    unfold cache_get
    simp [List.lookup, hte]
  have h := mw_falsy_forwards { emptyStorage with cache := [(path ++ "?" ++ query, ⟨v, e⟩)] } t ⟨path, query, "GET", []⟩ backend svc _ _ _ v hroute hrl hcb rfl hcg hfalsy
  exact ⟨hcg0, h.1, h.2⟩

set_option maxRecDepth 20000 in
/-- C9 witness: a rate-limited request (window already at the default
limit of 100) against a service whose breaker is open leaves the
breaker record untouched. -/
theorem gating_denials_do_not_touch_breaker_witness :
    (gateway_middleware { emptyStorage with rate_limits := [("anonymous", ⟨100, 1000⟩)], circuit_breakers := [("users", ⟨.opened, 5, 500, 0⟩)] } 0 ⟨"/api/users", "", "GET", []⟩ .timeout).1 = .rateLimited ∧
    (gateway_middleware { emptyStorage with rate_limits := [("anonymous", ⟨100, 1000⟩)], circuit_breakers := [("users", ⟨.opened, 5, 500, 0⟩)] } 0 ⟨"/api/users", "", "GET", []⟩ .timeout).2.2.circuit_breakers
      = [("users", ⟨.opened, 5, 500, 0⟩)] :=
  ⟨rfl,
   (gating_denials_do_not_touch_breaker { emptyStorage with rate_limits := [("anonymous", ⟨100, 1000⟩)], circuit_breakers := [("users", ⟨.opened, 5, 500, 0⟩)] } 0 ⟨"/api/users", "", "GET", []⟩ .timeout (Or.inl rfl)).trans rfl⟩

set_option maxRecDepth 20000 in
/-- C7 amended witness: a truthy payload cached by a GET at time 0 is
served as a hit with no outbound call by the same GET at time 100. -/
theorem get_caching_idempotent_for_truthy_payload_witness :
    (gateway_middleware emptyStorage 0 ⟨"/api/users", "", "GET", []⟩ (.success 200 (.obj [("a", .num 1)]))).1
      = .miss "users" 200 (.obj [("a", .num 1)]) ∧
    (gateway_middleware (gateway_middleware emptyStorage 0 ⟨"/api/users", "", "GET", []⟩ (.success 200 (.obj [("a", .num 1)]))).2.2 100 ⟨"/api/users", "", "GET", []⟩ .timeout).1
      = .hit "users" (.obj [("a", .num 1)]) ∧
    (gateway_middleware (gateway_middleware emptyStorage 0 ⟨"/api/users", "", "GET", []⟩ (.success 200 (.obj [("a", .num 1)]))).2.2 100 ⟨"/api/users", "", "GET", []⟩ .timeout).2.1
      = 0 := by
  have h := get_caching_idempotent_for_truthy_payload "/api/users" "" "users"
    (.obj [("a", .num 1)]) 0 100 .timeout rfl rfl (by decide)
  exact ⟨h.1, h.2.2.2.1, h.2.2.2.2⟩

set_option maxRecDepth 20000 in
/-- C10 witness: an empty-object payload cached under the key of
`GET /api/users` is returned by the cache store but the request is
still forwarded. -/
theorem falsy_cached_value_forwarded_witness :
    (cache_get { emptyStorage with cache := [("/api/users?", ⟨.obj [], 100⟩)] } 0 "/api/users?").1
      = some (.obj []) ∧
    (gateway_middleware { emptyStorage with cache := [("/api/users?", ⟨.obj [], 100⟩)] } 0 ⟨"/api/users", "", "GET", []⟩ .timeout).2.1 = 1 := by
  have h := falsy_cached_value_forwarded "/api/users" "" "users" (.obj []) 0 100 .timeout
    rfl rfl (by decide)
  exact ⟨h.1, h.2.1⟩

end Gateway
